import Mathlib

/-!
Verification of the Cycles mesh geometry core (`intern/cycles/render/mesh.h`):
the per-mesh data model (triangles, curves, patches, subpatches), the
subpatch dicing size contract, update-flag tracking, device packing, and the
BVH-build predicate.  Machine floats (`float2`, `float3`, `float4`) are
modelled as rationals; C `int` is modelled as `Int`.  Members whose
implementation is declared in `mesh.h` but compiled elsewhere (the dicing
engine, the device packer, the update flags, the BVH predicate) are modelled
from the specification, as marked on each definition.
-/

namespace Mesh

/-- Model of `float2`: a pair of coordinates. -/
abbrev float2 := ℚ × ℚ

/-- Model of `float3`: a 3D position. -/
abbrev float3 := ℚ × ℚ × ℚ

/-- Model of `BoundBox` (`util_boundbox.h`): an axis-aligned box, held by
min/max corner. Its contents are irrelevant to the claims proved here. -/
structure BoundBox where
  lo : float3
  hi : float3
deriving DecidableEq

/-- `Mesh::Triangle`: 3 vertex indices. -/
structure Triangle where
  v : Fin 3 → Int

/-- `Mesh::Curve`: `{int first_key; int num_keys; uint shader}`. -/
structure Curve where
  first_key : Int
  num_keys : Int
  shader : Nat

/-- `Mesh::Curve::num_segments`: `return num_keys - 1;`. -/
def Curve.num_segments (c : Curve) : Int := c.num_keys - 1

/-- `Mesh::Patch`: 4 vertex indices (`v[3]` is `-1` for a triangle patch),
shader id, smooth flag. -/
structure Patch where
  v : Fin 4 → Int
  shader : Nat
  smooth : Bool

/-- `Mesh::Patch::is_quad`: `return v[3] != -1;`. -/
def Patch.is_quad (p : Patch) : Bool := p.v 3 != -1

/-- `Mesh::SubPatch`: parent patch index, 4 edge tessellation factors
(`edge_factors[3]` is `-1` for a triangle subpatch), 4 corner UVs, bounds. -/
structure SubPatch where
  patch : Int
  edge_factors : Fin 4 → Int
  uv : Fin 4 → float2
  bounds : BoundBox

/-- `Mesh::SubPatch::is_quad`: `return edge_factors[3] != -1;`. -/
def SubPatch.is_quad (s : SubPatch) : Bool := s.edge_factors 3 != -1

/-- `Mesh::SubPatch::operator==`: early-out on `patch`, then a loop over
`i = 0..3` returning `false` on the first differing edge factor or UV. -/
def SubPatch.eq (a other : SubPatch) : Bool :=
  if a.patch != other.patch then
    false
  else if (List.finRange 4).any
      (fun i => (a.edge_factors i != other.edge_factors i) || (a.uv i != other.uv i)) then
    false
  else
    true

/-- `Mesh::SubPatch::operator!=`: `return !(*this == other);`. -/
def SubPatch.ne (a other : SubPatch) : Bool := !(SubPatch.eq a other)

/-! ## Dicing engine

`Mesh::diced_subpatch_size` and `Mesh::dice_subpatch` are declared in
`mesh.h` but their implementation is not part of the sources at hand, so the
dicing engine below is modelled from the specification: a subpatch dices to
a regular grid whose side lengths come from the 4 edge tessellation factors,
with each boundary edge carrying exactly its own factor's vertices, emitted
strictly ordered along the edge, and stitched to the interior so that the
shared boundary between adjacent subpatches is watertight.  A triangular
subpatch (4th edge factor `-1`) is fan-triangulated to the same contract. -/

/-- A UV parameter coordinate. -/
abbrev UV := float2

/-- Linear interpolation between two UV points. -/
def lerp (a b : UV) (t : ℚ) : UV :=
  (a.1 + t * (b.1 - a.1), a.2 + t * (b.2 - a.2))

/-- Model of `TessellatedSubPatch`: the output of dicing one subpatch, a
vertex buffer and a triangle index buffer.  `V` is the vertex payload
produced by the surface evaluator. -/
structure TessellatedSubPatch (V : Type) where
  verts : List V
  tris : List (Nat × Nat × Nat)

/-- Modelled from the spec: the boundary vertices contributed by one
subpatch edge with factor `t`, emitted strictly ordered from corner `a`
towards corner `b` at parameters `j/t`; the vertex at `b` itself is owned
by the next edge, so each edge contributes exactly `t` vertices. -/
def edgeVerts {V : Type} (P : UV → V) (a b : UV) (t : Nat) : List V :=
  (List.range t).map (fun (j : Nat) => P (lerp a b ((j : ℚ) / (t : ℚ))))

/-- Modelled from the spec: the interior vertices of a quad subpatch, a
regular `(Mu-1) × (Mv-1)` grid of bilinear UV samples strictly inside the
subpatch, where `Mu`/`Mv` are the grid side lengths. -/
def interiorVerts {V : Type} (P : UV → V) (c : Fin 4 → UV) (Mu Mv : Nat) : List V :=
  (List.range ((Mu - 1) * (Mv - 1))).map (fun k =>
    let i := k / (Mv - 1)
    let j := k % (Mv - 1)
    P (lerp (lerp (c 0) (c 1) (((i : ℚ) + 1) / (Mu : ℚ)))
            (lerp (c 3) (c 2) (((i : ℚ) + 1) / (Mu : ℚ)))
            (((j : ℚ) + 1) / (Mv : ℚ))))

/-- Modelled from the spec: T-junction-free stitching between a boundary
vertex path `p` and the adjacent interior vertex path `q`, producing
`(|p|-1) + (|q|-1)` triangles (each triangle consumes one step along one of
the two paths, advancing proportionally along the other). -/
def stitch (p q : List Nat) : List (Nat × Nat × Nat) :=
  (List.range (p.length - 1)).map (fun i =>
    (p.getD i 0, p.getD (i + 1) 0, q.getD (i * (q.length - 1) / (p.length - 1)) 0)) ++
  (List.range (q.length - 1)).map (fun j =>
    (q.getD (j + 1) 0, q.getD j 0, p.getD ((j + 1) * (p.length - 1) / (q.length - 1)) 0))

/-- Modelled from the spec: the fully regular interior of the quad grid,
two triangles per interior grid cell, `2·(Mu-2)·(Mv-2)` in all; interior
vertex `(i, j)` sits at buffer index `B + i·(Mv-1) + j` after the `B`
boundary vertices. -/
def interiorTris (B Mu Mv : Nat) : List (Nat × Nat × Nat) :=
  (List.range (2 * ((Mu - 2) * (Mv - 2)))).map (fun m =>
    let k := m / 2
    let i := k / (Mv - 2)
    let j := k % (Mv - 2)
    let a := B + i * (Mv - 1) + j
    let b := B + (i + 1) * (Mv - 1) + j
    if m % 2 = 0 then (a, b, b + 1) else (a, b + 1, a + 1))

/-- Modelled from the spec: the index path along one boundary edge, the
edge's own `t` strictly ordered vertices starting at buffer offset `off`,
closed by the first vertex `next` of the following edge (the shared
corner). -/
def edgePath (off next t : Nat) : List Nat :=
  (List.range t).map (fun j => off + j) ++ [next]

/-- Modelled from the spec: dicing of a quad subpatch with corner UVs `c`
and edge factors `t`, through surface evaluator `P`.  Boundary vertices are
emitted per edge, strictly ordered; the interior is a regular grid with
side lengths `Mu = max(t0, t2)` and `Mv = max(t1, t3)`; when the interior
is empty the boundary polygon is fan-triangulated, otherwise the regular
interior is stitched to each boundary edge without T-junctions. -/
def diceQuad {V : Type} (P : UV → V) (c : Fin 4 → UV) (t : Fin 4 → Nat) :
    TessellatedSubPatch V :=
  let Mu := max (t 0) (t 2)
  let Mv := max (t 1) (t 3)
  let B := t 0 + t 1 + t 2 + t 3
  let o1 := t 0
  let o2 := t 0 + t 1
  let o3 := t 0 + t 1 + t 2
  { verts :=
      edgeVerts P (c 0) (c 1) (t 0) ++ edgeVerts P (c 1) (c 2) (t 1) ++
      edgeVerts P (c 2) (c 3) (t 2) ++ edgeVerts P (c 3) (c 0) (t 3) ++
      interiorVerts P c Mu Mv
    tris :=
      if (Mu - 1) * (Mv - 1) = 0 then
        (List.range (B - 2)).map (fun k => (0, k + 1, k + 2))
      else
        interiorTris B Mu Mv ++
        stitch (edgePath 0 o1 (t 0))
          ((List.range (Mu - 1)).map (fun i => B + i * (Mv - 1))) ++
        stitch (edgePath o1 o2 (t 1))
          ((List.range (Mv - 1)).map (fun j => B + (Mu - 2) * (Mv - 1) + j)) ++
        stitch (edgePath o2 o3 (t 2))
          ((List.range (Mu - 1)).map (fun i => B + (Mu - 2 - i) * (Mv - 1) + (Mv - 2))) ++
        stitch (edgePath o3 0 (t 3))
          ((List.range (Mv - 1)).map (fun j => B + (Mv - 2 - j))) }

/-- Modelled from the spec: dicing of a triangular subpatch (4th edge
factor unused), a fan triangulation from the centroid over the boundary
vertices of the 3 real edges, to the same watertight-boundary contract. -/
def diceTri {V : Type} (P : UV → V) (c : Fin 4 → UV) (t : Fin 4 → Nat) :
    TessellatedSubPatch V :=
  let B := t 0 + t 1 + t 2
  let centroid : UV :=
    (((c 0).1 + (c 1).1 + (c 2).1) / 3, ((c 0).2 + (c 1).2 + (c 2).2) / 3)
  { verts :=
      edgeVerts P (c 0) (c 1) (t 0) ++ edgeVerts P (c 1) (c 2) (t 1) ++
      edgeVerts P (c 2) (c 0) (t 2) ++ [P centroid]
    tris := (List.range B).map (fun k => (B, k, (k + 1) % B)) }

/-- Modelled from the spec: `Mesh::dice_subpatch` (implementation not in
the sources at hand) produces the tessellation of one subpatch through the
surface evaluator `P` (bilinear interpolation for linear subdivision,
Catmull-Clark limit evaluation for smooth — only `P` changes between the
two). -/
def dice_subpatch {V : Type} (P : UV → V) (s : SubPatch) : TessellatedSubPatch V :=
  let t := fun i => (s.edge_factors i).toNat
  if s.is_quad then diceQuad P s.uv t else diceTri P s.uv t

/-- Modelled from the spec: `Mesh::diced_subpatch_size` (implementation not
in the sources at hand), the vertex/triangle counts of the dicing of one
subpatch, a pure function of its 4 edge tessellation factors, callable
before dicing to pre-size output buffers. -/
def diced_subpatch_size (s : SubPatch) : Nat × Nat :=
  let t := fun i => (s.edge_factors i).toNat
  if s.is_quad then
    let Mu := max (t 0) (t 2)
    let Mv := max (t 1) (t 3)
    let B := t 0 + t 1 + t 2 + t 3
    (B + (Mu - 1) * (Mv - 1), B + 2 * ((Mu - 1) * (Mv - 1)) - 2)
  else
    let B := t 0 + t 1 + t 2
    (B + 1, B)


/-! ## Update tracker, device packer, BVH predicate

`Mesh::tag_update`, `Mesh::pack_verts`, `Mesh::pack_curves` and
`Mesh::need_build_bvh` are declared in `mesh.h` but their implementation is
not part of the sources at hand; the models below follow the
specification. -/

/-- Modelled from the spec: the per-mesh dirty flags `need_update` and
`need_update_rebuild` (fields of `Mesh` in `mesh.h`). -/
structure UpdateFlags where
  need_update : Bool
  need_update_rebuild : Bool
deriving DecidableEq

/-- Modelled from the spec: `Mesh::tag_update` (implementation not in the
sources at hand) sets `need_update`, and additionally sets
`need_update_rebuild` when the change invalidates the acceleration
structure topology (`rebuild`); neither flag is cleared here — both are
cleared only by a completed device-update pass. -/
def tag_update (f : UpdateFlags) (rebuild : Bool) : UpdateFlags :=
  { need_update := true
    need_update_rebuild := f.need_update_rebuild || rebuild }

/-- Modelled from the spec: the events that touch a mesh's dirty flags —
further `tag_update` calls and the completion of a device-update pass. -/
inductive FlagEvent where
  | tagUpdate (rebuild : Bool)
  | passComplete
deriving DecidableEq

/-- Modelled from the spec: one step of the per-mesh flag state machine; a
completed device-update pass clears both flags together. -/
def stepFlags (f : UpdateFlags) : FlagEvent → UpdateFlags
  | .tagUpdate rebuild => tag_update f rebuild
  | .passComplete => { need_update := false, need_update_rebuild := false }

/-- Modelled from the spec: the flag state after a sequence of events. -/
def runFlags (f : UpdateFlags) (evs : List FlagEvent) : UpdateFlags :=
  evs.foldl stepFlags f

/-- Modelled from the spec: the part of a mesh's state read and written by
the device packer — geometry arrays plus the base offsets recorded back
into the mesh (`vert_offset`, `tri_offset`, `curve_offset`,
`curvekey_offset`). -/
structure PackState where
  verts : List float3
  triangles : List (Nat × Nat × Nat)
  curve_keys : List (float3 × ℚ)
  curves : List Curve
  vert_offset : Nat
  tri_offset : Nat
  curve_offset : Nat
  curvekey_offset : Nat

/-- Modelled from the spec: `Mesh::pack_verts` (implementation not in the
sources at hand) emits, per triangle, its 3 resolved vertex positions and
an index record whose indices are absolute (triangle vertex index plus the
scene-wide base offset), and records the base offsets back into the
mesh. -/
def pack_verts (m : PackState) (voff toff : Nat) :
    (List (float3 × float3 × float3) × List (Nat × Nat × Nat)) × PackState :=
  ((m.triangles.map (fun tr =>
      (m.verts.getD tr.1 (0, 0, 0), m.verts.getD tr.2.1 (0, 0, 0),
        m.verts.getD tr.2.2 (0, 0, 0))),
    m.triangles.map (fun tr => (tr.1 + voff, tr.2.1 + voff, tr.2.2 + voff))),
   { m with vert_offset := voff, tri_offset := toff })

/-- Modelled from the spec: `Mesh::pack_curves` (implementation not in the
sources at hand) emits the flattened curve key buffer and, per curve, a
data record holding its absolute first-key index (base offset applied),
key count and shader id, and records the base offsets back into the
mesh. -/
def pack_curves (m : PackState) (ckoff coff : Nat) :
    (List (float3 × ℚ) × List (Int × Int × Nat)) × PackState :=
  ((m.curve_keys,
    m.curves.map (fun c => (c.first_key + (ckoff : Int), c.num_keys, c.shader))),
   { m with curvekey_offset := ckoff, curve_offset := coff })

/-- Modelled from the spec: the inputs of `Mesh::need_build_bvh` — how many
scene placements reference the mesh, and whether intersection must be
mesh-local (primitive-specific handling, e.g. subsurface-limited rays). -/
structure BvhQuery where
  num_instances : Nat
  need_local_intersection : Bool

/-- Modelled from the spec: `Mesh::need_build_bvh` (implementation not in
the sources at hand) — an own BVH is needed when the mesh is instanced
multiple times or when intersection must be limited to the mesh itself. -/
def need_build_bvh (q : BvhQuery) : Bool :=
  decide (2 ≤ q.num_instances) || q.need_local_intersection


end Mesh

/-- A concrete subpatch used by witnesses: a unit-square quad subpatch with
all 4 edge factors equal to 2. -/
def quadSub2222 : Mesh.SubPatch where
  patch := 0
  edge_factors := fun _ => 2
  uv := ![(0, 0), (1, 0), (1, 1), (0, 1)]
  bounds := ⟨(0, 0, 0), (0, 0, 0)⟩

/-- A second concrete subpatch with the same edge factors as `quadSub2222`
but a different parent patch, different UVs and different bounds. -/
def quadSub2222v : Mesh.SubPatch where
  patch := 7
  edge_factors := fun _ => 2
  uv := ![(0, 0), (2, 0), (2, 2), (0, 2)]
  bounds := ⟨(0, 0, 0), (2, 2, 2)⟩

/-- Helper: `SubPatch.eq` decides componentwise equality of parent patch,
edge factors and UVs. -/
theorem Mesh.SubPatch.eq_iff (a b : Mesh.SubPatch) :
    Mesh.SubPatch.eq a b = true ↔
      (a.patch = b.patch ∧ (∀ i, a.edge_factors i = b.edge_factors i) ∧
        (∀ i, a.uv i = b.uv i)) := by
  unfold Mesh.SubPatch.eq
  by_cases hp : a.patch = b.patch
  · simp only [hp, bne_self_eq_false, Bool.false_eq_true, if_false]
    by_cases hq : ∀ i, a.edge_factors i = b.edge_factors i ∧ a.uv i = b.uv i
    · have hno : ¬ (List.finRange 4).any
          (fun i => (a.edge_factors i != b.edge_factors i) || (a.uv i != b.uv i)) = true := by
        simp only [List.any_eq_true, List.mem_finRange, true_and, not_exists]
        intro i
        simp [(hq i).1, (hq i).2]
      simp only [Bool.not_eq_true] at hno
      simp only [hno, Bool.false_eq_true, if_false]
      constructor
      · intro _
        exact ⟨trivial, fun i => (hq i).1, fun i => (hq i).2⟩
      · intro _
        trivial
    · push_neg at hq
      obtain ⟨i, hi⟩ := hq
      have hyes : (List.finRange 4).any
          (fun i => (a.edge_factors i != b.edge_factors i) || (a.uv i != b.uv i)) = true := by
        simp only [List.any_eq_true, List.mem_finRange, true_and]
        refine ⟨i, ?_⟩
        by_cases hef : a.edge_factors i = b.edge_factors i
        · simp [hef, hi hef]
        · simp [hef]
      simp only [hyes, if_true, Bool.false_eq_true, false_iff]
      rintro ⟨-, hef, huv⟩
      by_cases hef' : a.edge_factors i = b.edge_factors i
      · exact hi hef' (huv i)
      · exact hef' (hef i)
  · have hbne : (a.patch != b.patch) = true := by
      simp [bne_iff_ne, hp]
    simp only [hbne, if_true, Bool.false_eq_true, false_iff]
    rintro ⟨h1, -, -⟩
    exact hp h1

/-- C6: two subpatches compare equal iff they have the same parent patch
index, the same 4 edge factors and the same 4 corner UVs; the `bounds`
field plays no role in the comparison. -/
theorem subpatch_eq_iff_thm (a b : Mesh.SubPatch) :
    (Mesh.SubPatch.eq a b = true ↔
      (a.patch = b.patch ∧ (∀ i, a.edge_factors i = b.edge_factors i) ∧
        (∀ i, a.uv i = b.uv i))) ∧
    (∀ bb bb' : Mesh.BoundBox,
      Mesh.SubPatch.eq { a with bounds := bb } { b with bounds := bb' } =
        Mesh.SubPatch.eq a b) :=
  ⟨Mesh.SubPatch.eq_iff a b, fun _ _ => rfl⟩

/-- C7: a curve's segment count is its key count minus 1. -/
theorem curve_num_segments_thm (c : Mesh.Curve) :
    Mesh.Curve.num_segments c = c.num_keys - 1 := rfl

/-- C8: a patch is not a quad exactly when its 4th vertex index is `-1`,
and a subpatch is not a quad exactly when its 4th edge factor is `-1`. -/
theorem is_quad_iff_thm (p : Mesh.Patch) (s : Mesh.SubPatch) :
    (Mesh.Patch.is_quad p = false ↔ p.v 3 = -1) ∧
    (Mesh.SubPatch.is_quad s = false ↔ s.edge_factors 3 = -1) := by
  constructor <;> simp [Mesh.Patch.is_quad, Mesh.SubPatch.is_quad]

/-- C10: `operator!=` is the boolean negation of `operator==`, and the
relation decided by `operator==` is an equivalence: reflexive, symmetric
and transitive. -/
theorem subpatch_ne_equiv :
    (∀ a b : Mesh.SubPatch, Mesh.SubPatch.ne a b = !(Mesh.SubPatch.eq a b)) ∧
    (∀ a : Mesh.SubPatch, Mesh.SubPatch.eq a a = true) ∧
    (∀ a b : Mesh.SubPatch, Mesh.SubPatch.eq a b = Mesh.SubPatch.eq b a) ∧
    (∀ a b c : Mesh.SubPatch, Mesh.SubPatch.eq a b = true →
      Mesh.SubPatch.eq b c = true → Mesh.SubPatch.eq a c = true) := by
  refine ⟨fun _ _ => rfl, ?_, ?_, ?_⟩
  · intro a
    exact (Mesh.SubPatch.eq_iff a a).mpr ⟨rfl, fun _ => rfl, fun _ => rfl⟩
  · intro a b
    by_cases h : Mesh.SubPatch.eq a b = true
    · obtain ⟨h1, h2, h3⟩ := (Mesh.SubPatch.eq_iff a b).mp h
      rw [h, (Mesh.SubPatch.eq_iff b a).mpr ⟨h1.symm, fun i => (h2 i).symm, fun i => (h3 i).symm⟩]
    · have h' : ¬ Mesh.SubPatch.eq b a = true := by
        intro hba
        obtain ⟨h1, h2, h3⟩ := (Mesh.SubPatch.eq_iff b a).mp hba
        exact h ((Mesh.SubPatch.eq_iff a b).mpr
          ⟨h1.symm, fun i => (h2 i).symm, fun i => (h3 i).symm⟩)
      simp only [Bool.not_eq_true] at h h'
      rw [h, h']
  · intro a b c hab hbc
    obtain ⟨h1, h2, h3⟩ := (Mesh.SubPatch.eq_iff a b).mp hab
    obtain ⟨g1, g2, g3⟩ := (Mesh.SubPatch.eq_iff b c).mp hbc
    exact (Mesh.SubPatch.eq_iff a c).mpr
      ⟨h1.trans g1, fun i => (h2 i).trans (g2 i), fun i => (h3 i).trans (g3 i)⟩

/-- Witness for C10 at concrete subpatches. -/
theorem subpatch_ne_equiv_witness :
    Mesh.SubPatch.eq quadSub2222 quadSub2222 = true :=
  subpatch_ne_equiv.2.2.2 quadSub2222 quadSub2222 quadSub2222
    (subpatch_ne_equiv.2.1 quadSub2222) (subpatch_ne_equiv.2.1 quadSub2222)

/-- Helper: one boundary edge contributes exactly its factor's vertices. -/
theorem Mesh.length_edgeVerts {V : Type} (P : Mesh.UV → V) (a b : Mesh.UV) (t : Nat) :
    (Mesh.edgeVerts P a b t).length = t := by
  unfold Mesh.edgeVerts
  simp only [List.length_map, List.length_range]

/-- Helper: the interior grid has `(Mu-1)·(Mv-1)` vertices. -/
theorem Mesh.length_interiorVerts {V : Type} (P : Mesh.UV → V) (c : Fin 4 → Mesh.UV)
    (Mu Mv : Nat) :
    (Mesh.interiorVerts P c Mu Mv).length = (Mu - 1) * (Mv - 1) := by
  unfold Mesh.interiorVerts
  simp only [List.length_map, List.length_range]

/-- Helper: stitching two paths yields `(|p|-1) + (|q|-1)` triangles. -/
theorem Mesh.length_stitch (p q : List Nat) :
    (Mesh.stitch p q).length = (p.length - 1) + (q.length - 1) := by
  unfold Mesh.stitch
  simp only [List.length_append, List.length_map, List.length_range]

/-- Helper: a boundary edge path has `t + 1` vertices (its own `t` plus the
shared corner of the next edge). -/
theorem Mesh.length_edgePath (off next t : Nat) :
    (Mesh.edgePath off next t).length = t + 1 := by
  unfold Mesh.edgePath
  simp only [List.length_append, List.length_map, List.length_range, List.length_singleton]

/-- Helper: the regular interior carries `2·(Mu-2)·(Mv-2)` triangles. -/
theorem Mesh.length_interiorTris (B Mu Mv : Nat) :
    (Mesh.interiorTris B Mu Mv).length = 2 * ((Mu - 2) * (Mv - 2)) := by
  unfold Mesh.interiorTris
  simp only [List.length_map, List.length_range]

/-- Helper: vertex count of a diced quad subpatch. -/
theorem Mesh.diceQuad_verts_length {V : Type} (P : Mesh.UV → V) (c : Fin 4 → Mesh.UV)
    (t : Fin 4 → Nat) :
    (Mesh.diceQuad P c t).verts.length =
      t 0 + t 1 + t 2 + t 3 + (max (t 0) (t 2) - 1) * (max (t 1) (t 3) - 1) := by
  unfold Mesh.diceQuad
  dsimp only
  simp only [List.length_append, Mesh.length_edgeVerts, Mesh.length_interiorVerts]

/-- Helper: triangle count of a diced quad subpatch. -/
theorem Mesh.diceQuad_tris_length {V : Type} (P : Mesh.UV → V) (c : Fin 4 → Mesh.UV)
    (t : Fin 4 → Nat) :
    (Mesh.diceQuad P c t).tris.length =
      t 0 + t 1 + t 2 + t 3 + 2 * ((max (t 0) (t 2) - 1) * (max (t 1) (t 3) - 1)) - 2 := by
  unfold Mesh.diceQuad
  dsimp only
  by_cases hz : (max (t 0) (t 2) - 1) * (max (t 1) (t 3) - 1) = 0
  · rw [if_pos hz, hz]
    simp only [List.length_map, List.length_range]
    omega
  · rw [if_neg hz]
    simp only [List.length_append, Mesh.length_interiorTris, Mesh.length_stitch,
      Mesh.length_edgePath, List.length_map, List.length_range]
    have h1 : max (t 0) (t 2) - 1 ≠ 0 := fun h => hz (by rw [h, Nat.zero_mul])
    have h2 : max (t 1) (t 3) - 1 ≠ 0 := fun h => hz (by rw [h, Nat.mul_zero])
    obtain ⟨a, ha⟩ : ∃ a, max (t 0) (t 2) = a + 2 := ⟨max (t 0) (t 2) - 2, by omega⟩
    obtain ⟨b, hb⟩ : ∃ b, max (t 1) (t 3) = b + 2 := ⟨max (t 1) (t 3) - 2, by omega⟩
    rw [ha, hb]
    have hab1 : (a + 2 - 1) * (b + 2 - 1) = a * b + a + b + 1 := by
      have e1 : a + 2 - 1 = a + 1 := by omega
      have e2 : b + 2 - 1 = b + 1 := by omega
      rw [e1, e2]
      ring
    have hab2 : (a + 2 - 2) * (b + 2 - 2) = a * b := by
      have e1 : a + 2 - 2 = a := by omega
      have e2 : b + 2 - 2 = b := by omega
      rw [e1, e2]
    rw [hab1, hab2]
    generalize a * b = n
    omega

/-- Helper: vertex count of a diced triangular subpatch. -/
theorem Mesh.diceTri_verts_length {V : Type} (P : Mesh.UV → V) (c : Fin 4 → Mesh.UV)
    (t : Fin 4 → Nat) :
    (Mesh.diceTri P c t).verts.length = t 0 + t 1 + t 2 + 1 := by
  unfold Mesh.diceTri
  dsimp only
  simp only [List.length_append, Mesh.length_edgeVerts, List.length_singleton]

/-- Helper: triangle count of a diced triangular subpatch. -/
theorem Mesh.diceTri_tris_length {V : Type} (P : Mesh.UV → V) (c : Fin 4 → Mesh.UV)
    (t : Fin 4 → Nat) :
    (Mesh.diceTri P c t).tris.length = t 0 + t 1 + t 2 := by
  unfold Mesh.diceTri
  dsimp only
  simp only [List.length_map, List.length_range]

/-- Helper: the vertex and triangle counts of `dice_subpatch` are exactly
the pair computed by `diced_subpatch_size`. -/
theorem Mesh.dice_subpatch_counts {V : Type} (P : Mesh.UV → V) (s : Mesh.SubPatch) :
    (Mesh.dice_subpatch P s).verts.length = (Mesh.diced_subpatch_size s).1 ∧
    (Mesh.dice_subpatch P s).tris.length = (Mesh.diced_subpatch_size s).2 := by
  unfold Mesh.dice_subpatch Mesh.diced_subpatch_size
  dsimp only
  cases hq : Mesh.SubPatch.is_quad s
  · rw [if_neg (by simp), if_neg (by simp)]
    exact ⟨Mesh.diceTri_verts_length P s.uv _, Mesh.diceTri_tris_length P s.uv _⟩
  · rw [if_pos rfl, if_pos rfl]
    exact ⟨Mesh.diceQuad_verts_length P s.uv _, Mesh.diceQuad_tris_length P s.uv _⟩

/-- C1: the (numVerts, numTris) pair computed by `diced_subpatch_size`
equals exactly the vertex and triangle counts that `dice_subpatch`
subsequently produces, for every subpatch and every surface evaluator, and
`diced_subpatch_size` is a pure function of only the subpatch's 4 edge
tessellation factors. -/
theorem diced_subpatch_size_correct {V : Type} (P : Mesh.UV → V) (s : Mesh.SubPatch) :
    (Mesh.dice_subpatch P s).verts.length = (Mesh.diced_subpatch_size s).1 ∧
    (Mesh.dice_subpatch P s).tris.length = (Mesh.diced_subpatch_size s).2 ∧
    (∀ s' : Mesh.SubPatch, s.edge_factors = s'.edge_factors →
      Mesh.diced_subpatch_size s = Mesh.diced_subpatch_size s') := by
  refine ⟨(Mesh.dice_subpatch_counts P s).1, (Mesh.dice_subpatch_counts P s).2, ?_⟩
  intro s' h
  unfold Mesh.diced_subpatch_size Mesh.SubPatch.is_quad
  rw [h]

/-- Witness for C1: the purity clause applied to two concrete subpatches
sharing edge factors, plus the size prediction at the first of them. -/
theorem diced_subpatch_size_correct_witness :
    Mesh.diced_subpatch_size quadSub2222 = Mesh.diced_subpatch_size quadSub2222v ∧
    (Mesh.dice_subpatch (fun p : Mesh.UV => p) quadSub2222).verts.length =
      (Mesh.diced_subpatch_size quadSub2222).1 :=
  ⟨(diced_subpatch_size_correct (fun p : Mesh.UV => p) quadSub2222).2.2 quadSub2222v rfl,
   (diced_subpatch_size_correct (fun p : Mesh.UV => p) quadSub2222).1⟩

/-- C2: dicing is deterministic — two calls to `dice_subpatch` on equal
subpatch states, through the same surface evaluator, produce identical
vertex and triangle output. -/
theorem dice_subpatch_deterministic {V : Type} (P : Mesh.UV → V)
    (s1 s2 : Mesh.SubPatch) (h : s1 = s2) :
    Mesh.dice_subpatch P s1 = Mesh.dice_subpatch P s2 := by
  rw [h]

/-- Witness for C2 at a concrete subpatch. -/
theorem dice_subpatch_deterministic_witness :
    Mesh.dice_subpatch (fun p : Mesh.UV => p) quadSub2222 =
      Mesh.dice_subpatch (fun p : Mesh.UV => p) quadSub2222 :=
  dice_subpatch_deterministic (fun p : Mesh.UV => p) quadSub2222 quadSub2222 rfl

/-- C9 counterexample: the quad subpatch with edge factors {2,2,2,2} dices
to 9 vertices but 8 triangles, not 16: a regular grid with side length 2
has 3×3 = 9 vertices and 2×2 cells of 2 triangles each. -/
theorem dice_quad2222_not_16_tris :
    (Mesh.dice_subpatch (fun p : Mesh.UV => p) quadSub2222).verts.length = 9 ∧
    (Mesh.dice_subpatch (fun p : Mesh.UV => p) quadSub2222).tris.length = 8 ∧
    ¬ ((Mesh.dice_subpatch (fun p : Mesh.UV => p) quadSub2222).tris.length = 16) := by
  refine ⟨?_, ?_, ?_⟩ <;> decide

/-- C9 (amended): a quad subpatch with edge factors {2,2,2,2} dices to
exactly 8 triangles and 9 vertices under linear subdivision, and under
smooth subdivision (a different surface evaluator) the vertex count is the
same 9, only the vertex data differing. -/
theorem dice_quad2222_counts {V W : Type} (P : Mesh.UV → V) (Q : Mesh.UV → W) :
    (Mesh.dice_subpatch P quadSub2222).verts.length = 9 ∧
    (Mesh.dice_subpatch P quadSub2222).tris.length = 8 ∧
    (Mesh.dice_subpatch Q quadSub2222).verts.length =
      (Mesh.dice_subpatch P quadSub2222).verts.length := by
  have hsize : Mesh.diced_subpatch_size quadSub2222 = (9, 8) := by decide
  have hP := Mesh.dice_subpatch_counts P quadSub2222
  have hQ := Mesh.dice_subpatch_counts Q quadSub2222
  rw [hsize] at hP hQ
  exact ⟨hP.1, hP.2, hQ.1.trans hP.1.symm⟩

/-- Helper: a sequence of events containing no pass completion keeps both
dirty flags set once they are set. -/
theorem Mesh.runFlags_keeps_dirty (evs : List Mesh.FlagEvent) :
    ∀ g : Mesh.UpdateFlags, Mesh.FlagEvent.passComplete ∉ evs →
      g.need_update = true → g.need_update_rebuild = true →
      (Mesh.runFlags g evs).need_update = true ∧
        (Mesh.runFlags g evs).need_update_rebuild = true := by
  induction evs with
  | nil =>
    intro g _ h1 h2
    exact ⟨h1, h2⟩
  | cons e rest ih =>
    intro g hni h1 h2
    have hrest : Mesh.FlagEvent.passComplete ∉ rest :=
      fun hm => hni (List.mem_cons_of_mem _ hm)
    cases e with
    | tagUpdate r =>
      have hstep : Mesh.runFlags g (Mesh.FlagEvent.tagUpdate r :: rest) =
          Mesh.runFlags (Mesh.tag_update g r) rest := rfl
      rw [hstep]
      refine ih _ hrest rfl ?_
      simp [Mesh.tag_update, h2]
    | passComplete =>
      exact absurd (List.mem_cons_self _ _) hni

/-- C3: after `tag_update(scene, rebuild=true)` both `need_update` and
`need_update_rebuild` are true; they stay true through any further events
up to the next completed device-update pass; and after that completed pass
both are false. -/
theorem tag_update_rebuild_flags (f : Mesh.UpdateFlags) (evs : List Mesh.FlagEvent)
    (h : Mesh.FlagEvent.passComplete ∉ evs) :
    ((Mesh.tag_update f true).need_update = true ∧
      (Mesh.tag_update f true).need_update_rebuild = true) ∧
    ((Mesh.runFlags (Mesh.tag_update f true) evs).need_update = true ∧
      (Mesh.runFlags (Mesh.tag_update f true) evs).need_update_rebuild = true) ∧
    ((Mesh.stepFlags (Mesh.runFlags (Mesh.tag_update f true) evs)
        Mesh.FlagEvent.passComplete).need_update = false ∧
      (Mesh.stepFlags (Mesh.runFlags (Mesh.tag_update f true) evs)
        Mesh.FlagEvent.passComplete).need_update_rebuild = false) := by
  have h1 : (Mesh.tag_update f true).need_update = true := rfl
  have h2 : (Mesh.tag_update f true).need_update_rebuild = true := by
    simp [Mesh.tag_update]
  exact ⟨⟨h1, h2⟩, Mesh.runFlags_keeps_dirty evs (Mesh.tag_update f true) h h1 h2,
    rfl, rfl⟩

/-- Witness for C3 at a concrete flag state and event sequence. -/
theorem tag_update_rebuild_flags_witness :
    (Mesh.runFlags (Mesh.tag_update ⟨false, false⟩ true)
        [Mesh.FlagEvent.tagUpdate false]).need_update = true ∧
    (Mesh.stepFlags (Mesh.runFlags (Mesh.tag_update ⟨false, false⟩ true)
        [Mesh.FlagEvent.tagUpdate false]) Mesh.FlagEvent.passComplete).need_update = false :=
  ⟨(tag_update_rebuild_flags ⟨false, false⟩ [Mesh.FlagEvent.tagUpdate false]
      (by decide)).2.1.1,
   (tag_update_rebuild_flags ⟨false, false⟩ [Mesh.FlagEvent.tagUpdate false]
      (by decide)).2.2.1⟩

/-- C4: packing is idempotent — re-running `pack_verts` and `pack_curves`
on the mesh state left by a first run, with the same geometry and the same
base offsets, writes identical output buffers (and identical recorded
offsets). -/
theorem pack_idempotent (m : Mesh.PackState) (voff toff ckoff coff : Nat) :
    Mesh.pack_verts (Mesh.pack_verts m voff toff).2 voff toff =
      Mesh.pack_verts m voff toff ∧
    Mesh.pack_curves (Mesh.pack_curves m ckoff coff).2 ckoff coff =
      Mesh.pack_curves m ckoff coff :=
  ⟨rfl, rfl⟩

/-- C5: `need_build_bvh` is true for every mesh referenced by at least 2
instances that requires mesh-local intersection handling, and false for a
single-instance mesh with no such requirement. -/
theorem need_build_bvh_spec (q : Mesh.BvhQuery) :
    (2 ≤ q.num_instances → q.need_local_intersection = true →
      Mesh.need_build_bvh q = true) ∧
    (q.num_instances = 1 → q.need_local_intersection = false →
      Mesh.need_build_bvh q = false) := by
  constructor
  · intro h2 _
    simp [Mesh.need_build_bvh, h2]
  · intro h1 hloc
    simp [Mesh.need_build_bvh, h1, hloc]

/-- Witness for C5 at concrete queries. -/
theorem need_build_bvh_spec_witness :
    Mesh.need_build_bvh ⟨2, true⟩ = true ∧ Mesh.need_build_bvh ⟨1, false⟩ = false :=
  ⟨(need_build_bvh_spec ⟨2, true⟩).1 (by decide) (by decide),
   (need_build_bvh_spec ⟨1, false⟩).2 (by decide) (by decide)⟩
